import Mathlib

/-!
Shallow embedding of `force-app/main/default/lwc/tableauViz/tableauViz.js`
(the `TableauViz` Lightning web component) together with theorems about the
URL-construction, validation, mobile detection, rendering and selection-event
logic of the component.

Modelling conventions:
* JavaScript values flowing through the component's `@api` configuration
  fields are dynamically typed; they are embedded as `JSValue`.
* The platform WHATWG `URL` object is external to the repository; it is
  embedded as the record `URLRec` holding the parsed components the code
  reads (`protocol`, `origin`, path, search parameters, fragment).
  `new URL(s)` either throws (modelled as `none`) or yields such a record.
* `Math.random` / `window.crypto.getRandomValues` are embedded as an
  explicit stream `rand : Nat → Nat` of draws, consumed left to right.
* Constructing `new tableau.Viz(...)` yields a fresh object each time; the
  component state carries `vizCount`, the number of constructions performed,
  so that object identity (re-instantiation) is observable in the model.
-/

/-- A JavaScript value as it can appear in the component's configuration
fields and in the resolved advanced-filter value.  Numbers are modelled as
integers (the claims only involve integral values such as `0`). -/
inductive JSValue where
  | undefined
  | null
  | boolean (b : Bool)
  | number (n : Int)
  | string (s : String)
deriving DecidableEq

/-- JavaScript truthiness of a `JSValue` (`if (v)`).  `undefined`, `null`,
`false`, `0` and the empty string are falsy. -/
def truthy : JSValue → Bool
  | .undefined => false
  | .null => false
  | .boolean b => b
  | .number n => if n = 0 then false else true
  | .string s => if s = "" then false else true

/-- Whether a `JSValue` is `undefined` (the strict comparison
`v === undefined` used by the code). -/
def isUndef : JSValue → Bool
  | .undefined => true
  | _ => false

/-- Whether a `JSValue` is strictly the boolean `true`
(the comparison `v === true` used by `setVizFilters`). -/
def strictTrue : JSValue → Bool
  | .boolean true => true
  | _ => false

/-- JavaScript string coercion of a `JSValue`, as performed by template
literals and by `URLSearchParams.append`. -/
def jsToString : JSValue → String
  | .undefined => "undefined"
  | .null => "null"
  | .boolean b => if b then "true" else "false"
  | .number n => toString n
  | .string s => s

/-- Result of parsing a URL string with the platform WHATWG `URL` parser:
the components of the parsed URL that `tableauViz.js` reads or mutates.
`scheme` is the lowercased scheme without the trailing colon; `host`
includes the port when present; `pathname` starts with `/`; `searchParams`
is the ordered list of query parameters; `fragment` is either empty or
starts with `#`. -/
structure URLRec where
  scheme : String
  host : String
  pathname : String
  searchParams : List (String × String)
  fragment : String
deriving DecidableEq

/-- The `protocol` property of a parsed URL (`u.protocol`), scheme plus
trailing colon. -/
def URLRec.protocol (u : URLRec) : String := u.scheme ++ ":"

/-- The `origin` property of a parsed URL (`u.origin`) for the special
(https) schemes the component accepts. -/
def URLRec.origin (u : URLRec) : String := u.scheme ++ "://" ++ u.host

/-- Serialization of the search parameters: empty, or `?k=v&k=v&...`.
Percent-encoding is not modelled; no claim depends on the byte-level
encoding of a serialized query. -/
def serializeQuery : List (String × String) → String
  | [] => ""
  | ps => "?" ++ String.intercalate "&" (ps.map fun p => p.1 ++ "=" ++ p.2)

/-- The serialization of a parsed URL with its origin stripped.  The code
computes `u.toString().replace(u.origin, '')`; since `u.origin` is the
leading prefix of `u.toString()`, replacing its first occurrence strips it,
leaving pathname, query and fragment. -/
def URLRec.pathQueryFragment (u : URLRec) : String :=
  u.pathname ++ serializeQuery u.searchParams ++ u.fragment

/-- The effect of `u.searchParams.append(k, v)`: the pair is appended at
the end of the parameter list. -/
def appendParam (u : URLRec) (k v : String) : URLRec :=
  { u with searchParams := u.searchParams ++ [(k, v)] }

/-- Whether the parameter list of a URL holds a parameter with the given
name. -/
def hasParamNamed (u : URLRec) (k : String) : Bool :=
  u.searchParams.any fun p => p.1 == k

/-- JavaScript `String.prototype.startsWith`, embedded on character
lists. -/
def strStartsWith (s pre : String) : Bool :=
  pre.toList.isPrefixOf s.toList

/-- The `@api` configuration fields of the `TableauViz` component.
`vizUrl` is embedded by the outcome of parsing the configured string with
the platform URL parser: `none` when `new URL(this.vizUrl)` throws, and
`some u` when it yields the parsed URL `u` (the code parses the same
string in `validateInputs` and in `renderViz`, with the same result). -/
structure Config where
  objectApiName : JSValue
  recordId : JSValue
  vizUrl : Option URLRec
  showTabs : JSValue
  showToolbar : JSValue
  filterOnRecordId : JSValue
  height : JSValue
  tabAdvancedFilter : JSValue
  sfAdvancedFilter : JSValue
deriving DecidableEq

/-- Error message thrown for a non-HTTPS viz URL. -/
def httpsErrMsg : String :=
  "Invalid URL. Make sure the link to the Tableau view is using HTTPS."

/-- Error message thrown for a sharing-dialog URL containing a fragment
view path. -/
def fragmentErrMsg : String :=
  "Invalid URL. Enter the link for a Tableau view. Click Copy Link to copy the URL from the Share View dialog box in Tableau. The link for the Tableau view must not include a '#' after the name of the server."

/-- Error message recorded when exactly one of the two advanced-filter
fields is configured. -/
def filterPairErrMsg : String :=
  "Advanced filtering requires that you select both Tableau and Salesforce fields. The fields should represent corresponding data, for example, user or account identifiers."

/-- The component's `validateInputs` method: returns `none` when validation
succeeds, and `some msg` when validation fails after recording `msg` in
`this.errorMessage` (the try/catch around URL parsing turns both a parse
failure and the two explicit `throw Error(...)` statements into a recorded
message and a `false` return). -/
def validateInputs (cfg : Config) : Option String :=
  match cfg.vizUrl with
  | none => some "Invalid URL"
  | some u =>
    if u.protocol ≠ "https:" then some httpsErrMsg
    else if strStartsWith u.pathQueryFragment "/#/" then some fragmentErrMsg
    else if (truthy cfg.sfAdvancedFilter && !truthy cfg.tabAdvancedFilter)
         || (!truthy cfg.sfAdvancedFilter && truthy cfg.tabAdvancedFilter) then
      some filterPairErrMsg
    else none

/-- The component's `setVizDimensions`: appends the `:size` parameter with
value `"{containerWidth},{height}"`, where the width is the container's
`offsetWidth` (a number supplied by the layout engine, here a parameter)
and the height is the configured value coerced to a string. -/
def setVizDimensions (u : URLRec) (containerWidth : Nat) (height : JSValue) : URLRec :=
  appendParam u ":size" (toString containerWidth ++ "," ++ jsToString height)

/-- The component's `setVizFilters`: appends the in-context record-id
filter when `filterOnRecordId === true` and `objectApiName` is truthy, and
the advanced filter when `tabAdvancedFilter` and the resolved
`advancedFilterValue` are both truthy. -/
def setVizFilters (cfg : Config) (advancedFilterValue : JSValue) (u : URLRec) : URLRec :=
  let u1 :=
    if strictTrue cfg.filterOnRecordId && truthy cfg.objectApiName then
      appendParam u (jsToString cfg.objectApiName ++ " ID") (jsToString cfg.recordId)
    else u
  if truthy cfg.tabAdvancedFilter && truthy advancedFilterValue then
    appendParam u1 (jsToString cfg.tabAdvancedFilter) (jsToString advancedFilterValue)
  else u1

/-- Scan of a character list for an occurrence of the pattern `pat`,
leftmost first: the embedding of `RegExp.prototype.test` for a pattern
made of plain characters (`/SalesforceMobileSDK/`, and the containment
hypotheses about `uid_`, `iPhone`, `Android`, `iPad`). -/
def containsAux (pat : List Char) : List Char → Bool
  | [] => pat.isPrefixOf ([] : List Char)
  | c :: rest => pat.isPrefixOf (c :: rest) || containsAux pat rest

/-- Whether the string `s` holds the plain-character pattern `pat` as a
substring. -/
def containsToken (s pat : String) : Bool :=
  containsAux pat.toList s.toList

/-- First match of the alternation `(iPhone|Android|iPad)` in a character
list: the embedding of `deviceNameRegex.exec(userAgent)`, which returns
the leftmost match, trying the alternatives in order at each position. -/
def deviceFamilyAux : List Char → Option String
  | [] => none
  | c :: rest =>
    if ("iPhone".toList).isPrefixOf (c :: rest) then some "iPhone"
    else if ("Android".toList).isPrefixOf (c :: rest) then some "Android"
    else if ("iPad".toList).isPrefixOf (c :: rest) then some "iPad"
    else deviceFamilyAux rest

/-- Membership in the character class `[\w|-]` of the device-id pattern:
ASCII word characters plus `|` and `-` (the class in the source spells
`[\w|-]`, so the alternation bar is itself a class member). -/
def wordClassChar (c : Char) : Bool :=
  c.isAlphanum || c == '_' || c == '|' || c == '-'

/-- First match of `uid_([\w|-]+)` in a character list, returning capture
group 1: the embedding of `deviceIdRegex.exec(userAgent)`.  At each
position the literal `uid_` must be followed by at least one class
character; the capture is the maximal (greedy) run of class characters. -/
def uidCaptureAux : List Char → Option String
  | [] => none
  | c :: rest =>
    if ("uid_".toList).isPrefixOf (c :: rest) then
      match (c :: rest).drop 4 with
      | [] => uidCaptureAux rest
      | t :: ts =>
        if wordClassChar t then some (String.mk ((t :: ts).takeWhile wordClassChar))
        else uidCaptureAux rest
    else uidCaptureAux rest

/-- The sixteen lowercase hexadecimal digits in order, the output alphabet
of `(byte % 16).toString(16)`. -/
def hexChars : List Char := "0123456789abcdef".toList

/-- The four symbols of the array the code draws from for the `y` template
position. -/
def ySymbols : List Char := "89ab".toList

/-- The `getRandomSymbol` closure inside `generateRandomDeviceId`: for a
`y` position it draws one of `8`, `9`, `a`, `b` (`Math.floor(Math.random()
* 4)` indexes the four-element array); otherwise it draws a random byte
and keeps its low hex digit (`array[0] % 16).toString(16)`).  The `k`-th
random draw of the call is `rand k`. -/
def getRandomSymbol (rand : Nat → Nat) (k : Nat) (symbol : Char) : Char :=
  if symbol == 'y' then ySymbols.getD (rand k % 4) '8'
  else hexChars.getD (rand k % 16) '0'

/-- The `String.prototype.replace(/[xy]/g, getRandomSymbol)` call: every
`x` or `y` in the template is replaced by a fresh random symbol, consuming
the draw counter left to right; other characters are kept. -/
def replaceXYAux (rand : Nat → Nat) : Nat → List Char → List Char
  | _, [] => []
  | k, c :: rest =>
    if c == 'x' || c == 'y' then getRandomSymbol rand k c :: replaceXYAux rand (k + 1) rest
    else c :: replaceXYAux rand k rest

/-- The component's `generateRandomDeviceId`: the RFC-4122-shaped template
with every `x` and `y` replaced by a random symbol. -/
def generateRandomDeviceId (rand : Nat → Nat) : String :=
  String.mk (replaceXYAux rand 0 ("xxxxxxxx-xxxx-4xxx-yxxx-xxxxxxxxxxxx".toList))

/-- The component's static `checkForMobileApp`: when the user agent holds
the `SalesforceMobileSDK` marker, appends the four mobile parameters,
taking the device id from the `uid_` capture when present (otherwise a
random id) and the device name from the first `iPhone`/`Android`/`iPad`
token (otherwise the bare `SFMobileApp`). -/
def checkForMobileApp (vizToLoad : URLRec) (userAgent : String) (rand : Nat → Nat) : URLRec :=
  if !containsToken userAgent "SalesforceMobileSDK" then vizToLoad
  else
    let deviceId :=
      match uidCaptureAux userAgent.toList with
      | none => generateRandomDeviceId rand
      | some m => m
    let deviceName :=
      match deviceFamilyAux userAgent.toList with
      | none => "SFMobileApp"
      | some fam => "SFMobileApp_" ++ fam
    appendParam
      (appendParam
        (appendParam (appendParam vizToLoad ":use_rt" "y") ":client_id" "TableauVizLWC")
        ":device_id" deviceId)
      ":device_name" deviceName

/-- Lowercase hexadecimal digit predicate, used to state the
`xxxxxxxx-xxxx-4xxx-yxxx-xxxxxxxxxxxx` shape. -/
def isHexDigitLower (c : Char) : Bool :=
  c.isDigit || (decide ('a' ≤ c) && decide (c ≤ 'f'))

/-- What the character at position `i` of an RFC-4122-shaped identifier
must be: a hyphen at positions 8, 13, 18, 23; the literal `4` at position
14; one of `8`, `9`, `a`, `b` at position 19; a lowercase hex digit
elsewhere. -/
def uuidCharOk (i : Nat) (c : Char) : Bool :=
  if i == 8 || i == 13 || i == 18 || i == 23 then c == '-'
  else if i == 14 then c == '4'
  else if i == 19 then c == '8' || c == '9' || c == 'a' || c == 'b'
  else isHexDigitLower c

/-- Positional checker for the RFC-4122-like shape, walking the character
list while counting positions; the whole string must have length 36. -/
def uuidShapeAux : Nat → List Char → Bool
  | i, [] => i == 36
  | i, c :: rest => uuidCharOk i c && uuidShapeAux (i + 1) rest

/-- Whether a string matches the pattern
`xxxxxxxx-xxxx-4xxx-yxxx-xxxxxxxxxxxx` with `x` a lowercase hex digit and
`y` one of `8`, `9`, `a`, `b`. -/
def uuidShape (s : String) : Bool := uuidShapeAux 0 s.toList

/-- The options object handed to the `tableau.Viz` constructor. -/
structure VizOptions where
  hideTabs : Bool
  hideToolbar : Bool
  height : String
  width : String
deriving DecidableEq

/-- One constructed `tableau.Viz` instance: the URL string it was given
(embedded structurally) and its options. -/
structure VizInstance where
  url : URLRec
  options : VizOptions
deriving DecidableEq

/-- The mutable fields of a `TableauViz` component instance, together with
its configuration.  `vizCount` counts the evaluations of
`new tableau.Viz(...)` performed so far: each evaluation yields a distinct
object, so an increment of `vizCount` is the observable trace of a (re-)
instantiation.  `isConnected` records whether the host element is still
attached to the page; it is maintained by the component runtime and is
never read by the component's own code. -/
structure VizState where
  cfg : Config
  advancedFilterValue : JSValue
  errorMessage : Option String
  isLibLoaded : Bool
  isConnected : Bool
  viz : Option VizInstance
  vizCount : Nat
deriving DecidableEq

/-- The component's `renderViz` method.  It halts (leaving the state
unchanged except for a recorded validation error) when validation fails,
when an error message is recorded, when the library is not loaded, or when
a configured advanced filter value is still unresolved; otherwise it
builds the embed URL and constructs a fresh `tableau.Viz` instance.
`containerWidth` is the container div's `offsetWidth`, `ua` is
`window.navigator.userAgent` and `rand` is the stream of random draws.
The inner `match` on `cfg.vizUrl` re-reads the same parse outcome the
successful validation already established, so its `none` arm is
unreachable. -/
def renderViz (s : VizState) (containerWidth : Nat) (ua : String) (rand : Nat → Nat) : VizState :=
  match validateInputs s.cfg with
  | some msg => { s with errorMessage := some msg }
  | none =>
    if s.errorMessage.isSome then s
    else if !s.isLibLoaded then s
    else if truthy s.cfg.sfAdvancedFilter && isUndef s.advancedFilterValue then s
    else
      match s.cfg.vizUrl with
      | none => s
      | some u =>
        let u1 := setVizDimensions u containerWidth s.cfg.height
        let u2 := setVizFilters s.cfg s.advancedFilterValue u1
        let u3 := checkForMobileApp u2 ua rand
        { s with
          viz := some
            { url := u3
              options :=
                { hideTabs := !truthy s.cfg.showTabs
                  hideToolbar := !truthy s.cfg.showToolbar
                  height := jsToString s.cfg.height ++ "px"
                  width := "100%" } }
          vizCount := s.vizCount + 1 }

/-- The component's `renderedCallback`: it simply invokes `renderViz`. -/
def renderedCallback (s : VizState) (containerWidth : Nat) (ua : String) (rand : Nat → Nat) : VizState :=
  renderViz s containerWidth ua rand

/-- The continuation of `connectedCallback` that runs when the awaited
`loadScript` promise resolves: it sets `isLibLoaded` and invokes
`renderViz`, without consulting any liveness information about the host
element. -/
def connectedCallbackResume (s : VizState) (containerWidth : Nat) (ua : String) (rand : Nat → Nat) : VizState :=
  renderViz { s with isLibLoaded := true } containerWidth ua rand

/-- The payload published on the Lightning message channel. -/
structure SelectionPayload where
  selectedTarget : String
deriving DecidableEq

/-- The observable output of `fireLwcMarkEvent`: the locally dispatched
`CustomEvent` (name and detail) and the payload published on the
`tableauVizMessageChannel` message channel. -/
structure MarkEventResult where
  domEventName : String
  domEventDetail : String
  publishedPayload : SelectionPayload
deriving DecidableEq

/-- The `switch` statement of `onMarksSelection`: the static rename table
from internal worksheet identifiers to human-facing labels, keeping the
raw name when unmapped. -/
def mapSelectedTarget (selectedTarget : String) : String :=
  if selectedTarget = "IBDaysOfBacklog (2)" then "Inbound"
  else if selectedTarget = "BPDaysOfBacklog" then "Breakpack"
  else if selectedTarget = "FC.DOB" then "Fullcase"
  else selectedTarget

/-- The component's `fireLwcMarkEvent`: dispatches a `mark_fired`
`CustomEvent` with the given detail and publishes `{selectedTarget:
eventDetail}` on the message channel. -/
def fireLwcMarkEvent (eventDetail : String) : MarkEventResult :=
  { domEventName := "mark_fired"
    domEventDetail := eventDetail
    publishedPayload := { selectedTarget := eventDetail } }

/-- The component's `onMarksSelection` handler, applied to the worksheet
name extracted from the native selection event
(`marksEvent.getWorksheet().getName()`): the name is mapped through the
rename table and handed to `fireLwcMarkEvent`. -/
def onMarksSelection (worksheetName : String) : MarkEventResult :=
  fireLwcMarkEvent (mapSelectedTarget worksheetName)

/-- A well-formed parsed HTTPS viz URL used as a concrete fixture. -/
def baseUrl : URLRec :=
  { scheme := "https"
    host := "tableau.example.com"
    pathname := "/views/Sales/Dashboard"
    searchParams := []
    fragment := "" }

/-- A minimal parsed HTTPS URL fixture with no parameters. -/
def emptyUrl : URLRec :=
  { scheme := "https", host := "example.com", pathname := "/", searchParams := [], fragment := "" }

/-- A valid configuration with no filters: HTTPS viz URL, tabs and toolbar
shown, height 550, no record filtering and no advanced filter pair. -/
def cfgBase : Config :=
  { objectApiName := .undefined
    recordId := .undefined
    vizUrl := some baseUrl
    showTabs := .boolean true
    showToolbar := .boolean true
    filterOnRecordId := .undefined
    height := .number 550
    tabAdvancedFilter := .undefined
    sfAdvancedFilter := .undefined }

/-- A freshly connected component state over `cfgBase` whose library load
has completed. -/
def s0 : VizState :=
  { cfg := cfgBase
    advancedFilterValue := .undefined
    errorMessage := none
    isLibLoaded := true
    isConnected := true
    viz := none
    vizCount := 0 }

/-- The state after one successful `renderViz` pass over `s0`: the
component is Rendered (a viz instance has been constructed). -/
def s1 : VizState := renderViz s0 800 "Mozilla/5.0" (fun _ => 0)

/-- A configuration over `cfgBase` in which only the Salesforce side of
the advanced-filter pair is set. -/
def cfgMismatched : Config := { cfgBase with sfAdvancedFilter := .string "Contact.Region__c" }

/-- A loaded component state over `cfgMismatched`. -/
def sMismatched : VizState := { s0 with cfg := cfgMismatched }

/-- An HTTP (non-secure) parse outcome for the viz URL. -/
def httpUrl : URLRec :=
  { scheme := "http"
    host := "tableau.example.com"
    pathname := "/views/Sales/Dashboard"
    searchParams := []
    fragment := "" }

/-- A configuration over `cfgBase` whose viz URL parsed with the `http`
scheme. -/
def cfgHttp : Config := { cfgBase with vizUrl := some httpUrl }

/-- A loaded component state over `cfgHttp`. -/
def sHttp : VizState := { s0 with cfg := cfgHttp }

/-- A configuration over `cfgBase` with both advanced-filter fields
set. -/
def cfgAdvanced : Config :=
  { cfgBase with
    tabAdvancedFilter := .string "TabField"
    sfAdvancedFilter := .string "Contact.Region__c" }

/-- A configuration over `cfgBase` requesting in-context filtering for an
`Account` record `001x`. -/
def cfgAccount : Config :=
  { cfgBase with
    filterOnRecordId := .boolean true
    objectApiName := .string "Account"
    recordId := .string "001x" }

/-- A loaded component state over `cfgAccount`. -/
def sAccount : VizState := { s0 with cfg := cfgAccount }

/-- A configuration over `cfgBase` in which `filterOnRecordId` is the
truthy string `"true"` rather than the boolean `true`. -/
def cfgStringTrue : Config :=
  { cfgBase with
    filterOnRecordId := .string "true"
    objectApiName := .string "Account" }

/-- A configuration over `cfgBase` requesting in-context filtering while
`recordId` is still `undefined`. -/
def cfgNoRecordId : Config :=
  { cfgBase with
    filterOnRecordId := .boolean true
    objectApiName := .string "Account" }

/-- A component state over `cfgBase` whose host element has been detached
from the page while the library load is still pending. -/
def sDetached : VizState :=
  { cfg := cfgBase
    advancedFilterValue := .undefined
    errorMessage := none
    isLibLoaded := false
    isConnected := false
    viz := none
    vizCount := 0 }

example : validateInputs cfgBase = none := by decide
example : s1.vizCount = 1 ∧ s1.viz.isSome = true := by decide
example : (renderViz s1 800 "Mozilla/5.0" (fun _ => 0)).vizCount = 2 := by decide
example : generateRandomDeviceId (fun _ => 0) = "00000000-0000-4000-8000-000000000000" := by decide
example : uuidShape "00000000-0000-4000-8000-000000000000" = true := by decide
example : containsToken "SalesforceMobileSDK Android iPhone" "iPhone" = true := by decide
example :
    List.lookup ":device_name"
      (checkForMobileApp emptyUrl "SalesforceMobileSDK Android iPhone" (fun _ => 0)).searchParams
      = some "SFMobileApp_Android" := by decide

/-- Appending a parameter preserves the parameters already present. -/
theorem mem_appendParam {p : String × String} {u : URLRec} (k v : String)
    (h : p ∈ u.searchParams) : p ∈ (appendParam u k v).searchParams := by
  simp only [appendParam, List.mem_append]
  exact Or.inl h

/-- The appended pair is a parameter of the result of `appendParam`. -/
theorem appended_mem_appendParam (u : URLRec) (k v : String) :
    (k, v) ∈ (appendParam u k v).searchParams := by
  simp [appendParam]

/-- Effect of `appendParam` on `hasParamNamed`: the result holds a
parameter named `n` exactly when the original did or the appended name is
`n`. -/
theorem hasParamNamed_appendParam (u : URLRec) (k v n : String) :
    hasParamNamed (appendParam u k v) n = (hasParamNamed u n || (k == n)) := by
  simp [hasParamNamed, appendParam]

/-- `setVizFilters` only appends parameters: every parameter of the input
URL is a parameter of the output. -/
theorem mem_setVizFilters {p : String × String} (cfg : Config) (advVal : JSValue)
    {u : URLRec} (h : p ∈ u.searchParams) :
    p ∈ (setVizFilters cfg advVal u).searchParams := by
  unfold setVizFilters
  by_cases h1 : (strictTrue cfg.filterOnRecordId && truthy cfg.objectApiName) = true <;>
    by_cases h2 : (truthy cfg.tabAdvancedFilter && truthy advVal) = true <;>
      simp only [h1, h2, if_true, if_false, Bool.not_eq_true] at * <;>
      first
        | exact mem_appendParam _ _ (mem_appendParam _ _ h)
        | exact mem_appendParam _ _ h
        | exact h

/-- `checkForMobileApp` only appends parameters: every parameter of the
input URL is a parameter of the output. -/
theorem mem_checkForMobileApp {p : String × String} {u : URLRec} (ua : String)
    (rand : Nat → Nat) (h : p ∈ u.searchParams) :
    p ∈ (checkForMobileApp u ua rand).searchParams := by
  unfold checkForMobileApp
  by_cases hm : containsToken ua "SalesforceMobileSDK" = true
  · simp only [hm, Bool.not_true, if_false]
    exact mem_appendParam _ _ (mem_appendParam _ _ (mem_appendParam _ _ (mem_appendParam _ _ h)))
  · simp only [Bool.not_eq_true] at hm
    simp [hm, h]

/-- When `filterOnRecordId === true` and `objectApiName` is truthy,
`setVizFilters` puts the in-context record-id parameter, with the
string-coerced `recordId` as its value, into the URL. -/
theorem recordParam_mem (cfg : Config) (advVal : JSValue) (u : URLRec)
    (h1 : strictTrue cfg.filterOnRecordId = true) (h2 : truthy cfg.objectApiName = true) :
    (jsToString cfg.objectApiName ++ " ID", jsToString cfg.recordId)
      ∈ (setVizFilters cfg advVal u).searchParams := by
  unfold setVizFilters
  simp only [h1, h2, Bool.and_self, if_true]
  by_cases h3 : (truthy cfg.tabAdvancedFilter && truthy advVal) = true <;>
    simp only [h3, if_true, if_false] <;>
    first
      | exact mem_appendParam _ _ (appended_mem_appendParam _ _ _)
      | exact appended_mem_appendParam _ _ _

/-- `strictTrue` characterization: it holds exactly for the boolean
`true`. -/
theorem strictTrue_eq_true_iff (v : JSValue) : strictTrue v = true ↔ v = JSValue.boolean true := by
  cases v with
  | boolean b => cases b <;> simp [strictTrue]
  | _ => simp [strictTrue]

/-- A user agent without the `uid_` marker yields no device-id capture:
the leftmost-match scan for `uid_([\w|-]+)` fails everywhere. -/
theorem uidCaptureAux_eq_none (l : List Char)
    (h : containsAux ("uid_".toList) l = false) : uidCaptureAux l = none := by
  induction l with
  | nil => rfl
  | cons c rest ih =>
    unfold containsAux at h
    simp only [Bool.or_eq_false_iff] at h
    unfold uidCaptureAux
    simp only [h.1, if_false]
    exact ih h.2

/-- When a user agent holds `iPhone` but neither `Android` nor `iPad`, the
leftmost match of the family alternation is `iPhone`. -/
theorem deviceFamilyAux_iphone (l : List Char)
    (h1 : containsAux ("iPhone".toList) l = true)
    (h2 : containsAux ("Android".toList) l = false)
    (h3 : containsAux ("iPad".toList) l = false) :
    deviceFamilyAux l = some "iPhone" := by
  induction l with
  | nil => simp [containsAux] at h1
  | cons c rest ih =>
    unfold containsAux at h1 h2 h3
    simp only [Bool.or_eq_false_iff] at h2 h3
    unfold deviceFamilyAux
    by_cases hp : ("iPhone".toList).isPrefixOf (c :: rest) = true
    · rw [if_pos hp]
    · simp only [Bool.not_eq_true] at hp
      simp only [hp, Bool.false_or] at h1
      simp only [hp, h2.1, h3.1, if_false]
      exact ih h1 h2.2 h3.2

/-- Every entry of `hexChars` selected by a reduced random draw is a
lowercase hexadecimal digit. -/
theorem hexChars_getD_ok (n : Nat) : isHexDigitLower (hexChars.getD (n % 16) '0') = true := by
  have hlt : n % 16 < 16 := Nat.mod_lt _ (by norm_num)
  have hall : ∀ m : Fin 16, isHexDigitLower (hexChars.getD m.val '0') = true := by decide
  exact hall ⟨n % 16, hlt⟩

/-- Every entry of `ySymbols` selected by a reduced random draw is one of
`8`, `9`, `a`, `b`. -/
theorem ySymbols_getD_ok (n : Nat) :
    ((ySymbols.getD (n % 4) '8') == '8' || (ySymbols.getD (n % 4) '8') == '9'
      || (ySymbols.getD (n % 4) '8') == 'a' || (ySymbols.getD (n % 4) '8') == 'b') = true := by
  have hlt : n % 4 < 4 := Nat.mod_lt _ (by norm_num)
  have hall : ∀ m : Fin 4,
      ((ySymbols.getD m.val '8') == '8' || (ySymbols.getD m.val '8') == '9'
        || (ySymbols.getD m.val '8') == 'a' || (ySymbols.getD m.val '8') == 'b') = true := by decide
  exact hall ⟨n % 4, hlt⟩

/-- For every stream of random draws, the identifier produced by
`generateRandomDeviceId` matches the RFC-4122-like shape
`xxxxxxxx-xxxx-4xxx-yxxx-xxxxxxxxxxxx`. -/
theorem generateRandomDeviceId_shape (rand : Nat → Nat) :
    uuidShape (generateRandomDeviceId rand) = true := by
  show uuidShapeAux 0
    [hexChars.getD (rand 0 % 16) '0', hexChars.getD (rand 1 % 16) '0',
     hexChars.getD (rand 2 % 16) '0', hexChars.getD (rand 3 % 16) '0',
     hexChars.getD (rand 4 % 16) '0', hexChars.getD (rand 5 % 16) '0',
     hexChars.getD (rand 6 % 16) '0', hexChars.getD (rand 7 % 16) '0', '-',
     hexChars.getD (rand 8 % 16) '0', hexChars.getD (rand 9 % 16) '0',
     hexChars.getD (rand 10 % 16) '0', hexChars.getD (rand 11 % 16) '0', '-', '4',
     hexChars.getD (rand 12 % 16) '0', hexChars.getD (rand 13 % 16) '0',
     hexChars.getD (rand 14 % 16) '0', '-',
     ySymbols.getD (rand 15 % 4) '8',
     hexChars.getD (rand 16 % 16) '0', hexChars.getD (rand 17 % 16) '0',
     hexChars.getD (rand 18 % 16) '0', '-',
     hexChars.getD (rand 19 % 16) '0', hexChars.getD (rand 20 % 16) '0',
     hexChars.getD (rand 21 % 16) '0', hexChars.getD (rand 22 % 16) '0',
     hexChars.getD (rand 23 % 16) '0', hexChars.getD (rand 24 % 16) '0',
     hexChars.getD (rand 25 % 16) '0', hexChars.getD (rand 26 % 16) '0',
     hexChars.getD (rand 27 % 16) '0', hexChars.getD (rand 28 % 16) '0',
     hexChars.getD (rand 29 % 16) '0', hexChars.getD (rand 30 % 16) '0'] = true
  simp only [uuidShapeAux, Bool.and_eq_true]
  repeat' apply And.intro
  all_goals first
    | exact hexChars_getD_ok _
    | exact ySymbols_getD_ok _
    | decide

/-- A scheme other than `https` yields a `protocol` property other than
`https:`. -/
theorem protocol_ne_of_scheme_ne (u : URLRec) (h : u.scheme ≠ "https") :
    u.protocol ≠ "https:" := by
  intro hc
  apply h
  have hd := congrArg String.data hc
  simp only [URLRec.protocol, String.data_append] at hd
  have h2 : u.scheme.data ++ (":" : String).data = "https".data ++ (":" : String).data := by
    rw [hd]; rfl
  exact String.ext (List.append_cancel_right h2)

/-- Claim C1 counterexample: the state `s1` is already Rendered (its viz
is constructed) and the render-capable lifecycle callback is invoked again
with identical inputs, yet the operation is not a no-op — a new viz
instance is constructed (`vizCount` increments) and the state changes. -/
theorem renderViz_rerender_not_noop :
    s1.viz.isSome = true
      ∧ (renderedCallback s1 800 "Mozilla/5.0" (fun _ => 0)).vizCount = s1.vizCount + 1
      ∧ renderedCallback s1 800 "Mozilla/5.0" (fun _ => 0) ≠ s1 := by decide

/-- Claim C1 (amended): a render-capable lifecycle callback re-runs the
halt checks only; whenever they all pass — validation succeeds, no error
is recorded, the library is loaded and any configured advanced filter
value is resolved — `renderViz` constructs a new viz instance on every
invocation, even when the component is already Rendered with unchanged
inputs. -/
theorem renderViz_reinstantiates_when_ready (s : VizState) (w : Nat) (ua : String)
    (rand : Nat → Nat)
    (h1 : validateInputs s.cfg = none)
    (h2 : s.errorMessage = none)
    (h3 : s.isLibLoaded = true)
    (h4 : (truthy s.cfg.sfAdvancedFilter && isUndef s.advancedFilterValue) = false) :
    (renderViz s w ua rand).vizCount = s.vizCount + 1
      ∧ (renderViz s w ua rand).viz.isSome = true := by
  have hu : ∃ u, s.cfg.vizUrl = some u := by
    cases hv : s.cfg.vizUrl with
    | none => unfold validateInputs at h1; rw [hv] at h1; exact absurd h1 (by simp)
    | some u => exact ⟨u, rfl⟩
  obtain ⟨u, hu⟩ := hu
  unfold renderViz
  rw [h1]
  simp [h2, h3, h4, hu]

/-- Witness for `renderViz_reinstantiates_when_ready` at the Rendered
state `s1`. -/
theorem renderViz_reinstantiates_when_ready_witness :
    (renderViz s1 800 "Mozilla/5.0" (fun _ => 0)).vizCount = s1.vizCount + 1
      ∧ (renderViz s1 800 "Mozilla/5.0" (fun _ => 0)).viz.isSome = true :=
  renderViz_reinstantiates_when_ready s1 800 "Mozilla/5.0" (fun _ => 0)
    (by decide) (by decide) (by decide) (by decide)

/-- Claim C5: whenever exactly one of the two advanced-filter fields is
set, validation fails (it returns `false` after recording an error
message), and the render pass records an error message and constructs no
viz, regardless of the values of all other configuration fields. -/
theorem mismatchedFilterPair_fails (s : VizState) (w : Nat) (ua : String) (rand : Nat → Nat)
    (hx : truthy s.cfg.sfAdvancedFilter ≠ truthy s.cfg.tabAdvancedFilter) :
    (validateInputs s.cfg).isSome = true
      ∧ (renderViz s w ua rand).errorMessage.isSome = true
      ∧ (renderViz s w ua rand).viz = s.viz := by
  have hv : (validateInputs s.cfg).isSome = true := by
    unfold validateInputs
    cases hurl : s.cfg.vizUrl with
    | none => rfl
    | some u =>
      have hc : ((truthy s.cfg.sfAdvancedFilter && !truthy s.cfg.tabAdvancedFilter)
          || (!truthy s.cfg.sfAdvancedFilter && truthy s.cfg.tabAdvancedFilter)) = true := by
        cases hsf : truthy s.cfg.sfAdvancedFilter <;>
          cases htab : truthy s.cfg.tabAdvancedFilter <;> simp_all
      dsimp only
      by_cases hp : u.protocol ≠ "https:"
      · rw [if_pos hp]; rfl
      · rw [if_neg hp]
        by_cases hf : strStartsWith u.pathQueryFragment "/#/" = true
        · rw [if_pos hf]; rfl
        · rw [if_neg hf, if_pos hc]; rfl
  obtain ⟨m, hm⟩ := Option.isSome_iff_exists.mp hv
  refine ⟨hv, ?_, ?_⟩ <;> simp [renderViz, hm]

/-- Witness for `mismatchedFilterPair_fails`: only the Salesforce filter
field is set. -/
theorem mismatchedFilterPair_fails_witness :
    (validateInputs sMismatched.cfg).isSome = true
      ∧ (renderViz sMismatched 800 "Mozilla/5.0" (fun _ => 0)).errorMessage.isSome = true
      ∧ (renderViz sMismatched 800 "Mozilla/5.0" (fun _ => 0)).viz = sMismatched.viz :=
  mismatchedFilterPair_fails sMismatched 800 "Mozilla/5.0" (fun _ => 0) (by decide)

/-- Claim C6: whenever the configured viz URL parsed with a scheme other
than `https`, validation fails (recording an error message), and the
render pass records an error message and constructs no viz. -/
theorem nonHttpsScheme_fails (s : VizState) (w : Nat) (ua : String) (rand : Nat → Nat)
    (u : URLRec) (hu : s.cfg.vizUrl = some u) (hs : u.scheme ≠ "https") :
    (validateInputs s.cfg).isSome = true
      ∧ (renderViz s w ua rand).errorMessage.isSome = true
      ∧ (renderViz s w ua rand).viz = s.viz := by
  have hv : validateInputs s.cfg = some httpsErrMsg := by
    unfold validateInputs
    rw [hu]
    dsimp only
    rw [if_pos (protocol_ne_of_scheme_ne u hs)]
  refine ⟨by rw [hv]; rfl, ?_, ?_⟩ <;> simp [renderViz, hv]

/-- Witness for `nonHttpsScheme_fails` at the `http`-scheme fixture. -/
theorem nonHttpsScheme_fails_witness :
    (validateInputs sHttp.cfg).isSome = true
      ∧ (renderViz sHttp 800 "Mozilla/5.0" (fun _ => 0)).errorMessage.isSome = true
      ∧ (renderViz sHttp 800 "Mozilla/5.0" (fun _ => 0)).viz = sHttp.viz :=
  nonHttpsScheme_fails sHttp 800 "Mozilla/5.0" (fun _ => 0) httpUrl rfl (by decide)

/-- Claim C8: the continuation that runs when the awaited library load
completes consults no liveness information — on a state whose host
element is already detached it still flips `isLibLoaded` and constructs a
viz instance against the stale container. -/
theorem lateLoadCompletion_mutates_after_destroy :
    sDetached.isConnected = false
      ∧ (connectedCallbackResume sDetached 800 "Mozilla/5.0" (fun _ => 0)).isLibLoaded = true
      ∧ (connectedCallbackResume sDetached 800 "Mozilla/5.0" (fun _ => 0)).vizCount
          = sDetached.vizCount + 1
      ∧ (connectedCallbackResume sDetached 800 "Mozilla/5.0" (fun _ => 0)).isConnected = false := by
  decide

/-- Claim C2 counterexample: both filter fields are set and the resolved
filter value is the defined, non-empty scalar `0`, yet no advanced-filter
parameter is appended — the code tests JavaScript truthiness, and `0` is
falsy. -/
theorem setVizFilters_zero_not_appended :
    hasParamNamed (setVizFilters cfgAdvanced (JSValue.number 0) emptyUrl) "TabField" = false
      ∧ (JSValue.number 0) ≠ JSValue.undefined
      ∧ truthy cfgAdvanced.tabAdvancedFilter = true := by decide

/-- Claim C2 (amended): with the Tableau filter field set, the
advanced-filter parameter named by it is appended exactly when the
resolved filter value is truthy in the JavaScript sense (defined,
non-null, not `false`, non-zero and non-empty); the hypotheses keep the
parameter name distinct from any pre-existing parameter and from the
record-id parameter name. -/
theorem setVizFilters_advanced_iff_truthy (cfg : Config) (advVal : JSValue) (u : URLRec)
    (h1 : truthy cfg.tabAdvancedFilter = true)
    (h2 : hasParamNamed u (jsToString cfg.tabAdvancedFilter) = false)
    (h3 : jsToString cfg.tabAdvancedFilter ≠ jsToString cfg.objectApiName ++ " ID") :
    hasParamNamed (setVizFilters cfg advVal u) (jsToString cfg.tabAdvancedFilter)
      = truthy advVal := by
  unfold setVizFilters
  have hrec :
      hasParamNamed
        (if strictTrue cfg.filterOnRecordId && truthy cfg.objectApiName then
          appendParam u (jsToString cfg.objectApiName ++ " ID") (jsToString cfg.recordId)
        else u)
        (jsToString cfg.tabAdvancedFilter) = false := by
    by_cases hb : (strictTrue cfg.filterOnRecordId && truthy cfg.objectApiName) = true
    · rw [if_pos hb, hasParamNamed_appendParam, h2]
      simp only [Bool.false_or, beq_eq_false_iff_ne]
      exact Ne.symm h3
    · rw [if_neg hb]; exact h2
  cases ha : truthy advVal with
  | true =>
    rw [if_pos (by simp [h1, ha])]
    rw [hasParamNamed_appendParam, hrec]
    simp
  | false =>
    rw [if_neg (by simp [h1, ha])]
    exact hrec

/-- Witness for `setVizFilters_advanced_iff_truthy`: a truthy resolved
value is appended. -/
theorem setVizFilters_advanced_iff_truthy_witness :
    hasParamNamed (setVizFilters cfgAdvanced (JSValue.string "West") emptyUrl)
        (jsToString cfgAdvanced.tabAdvancedFilter)
      = truthy (JSValue.string "West") :=
  setVizFilters_advanced_iff_truthy cfgAdvanced (JSValue.string "West") emptyUrl
    (by decide) (by decide) (by decide)

/-- Claim C3 counterexample: a user agent holding `SalesforceMobileSDK`
and `iPhone` with no `uid_` token, but with `Android` occurring earlier —
detection yields device name `SFMobileApp_Android`, not
`SFMobileApp_iPhone`, because the code takes the first match of the
`(iPhone|Android|iPad)` alternation. -/
theorem checkForMobileApp_android_before_iphone :
    containsToken "SalesforceMobileSDK Android iPhone" "iPhone" = true
      ∧ containsToken "SalesforceMobileSDK Android iPhone" "uid_" = false
      ∧ List.lookup ":device_name"
          (checkForMobileApp emptyUrl "SalesforceMobileSDK Android iPhone"
            (fun _ => 0)).searchParams
          = some "SFMobileApp_Android"
      ∧ "SFMobileApp_Android" ≠ "SFMobileApp_iPhone" := by decide

/-- Claim C3 (amended): for every user agent holding `SalesforceMobileSDK`
and `iPhone` but no `uid_` token and no `Android` or `iPad` token, mobile
detection appends the four mobile parameters with device name
`SFMobileApp_iPhone` and a generated device id matching the RFC-4122-like
shape `xxxxxxxx-xxxx-4xxx-yxxx-xxxxxxxxxxxx` (hex digits, a literal `4`,
and `y` among 8, 9, a, b). -/
theorem checkForMobileApp_iphone_trace (u : URLRec) (ua : String) (rand : Nat → Nat)
    (h1 : containsToken ua "SalesforceMobileSDK" = true)
    (h2 : containsToken ua "uid_" = false)
    (h3 : containsToken ua "iPhone" = true)
    (h4 : containsToken ua "Android" = false)
    (h5 : containsToken ua "iPad" = false) :
    (checkForMobileApp u ua rand).searchParams
        = u.searchParams ++ [(":use_rt", "y"), (":client_id", "TableauVizLWC"),
            (":device_id", generateRandomDeviceId rand),
            (":device_name", "SFMobileApp_iPhone")]
      ∧ uuidShape (generateRandomDeviceId rand) = true := by
  constructor
  · unfold checkForMobileApp
    rw [h1]
    dsimp only
    rw [uidCaptureAux_eq_none _ h2, deviceFamilyAux_iphone _ h3 h4 h5]
    simp [appendParam]
  · exact generateRandomDeviceId_shape rand

/-- Witness for `checkForMobileApp_iphone_trace` on a concrete SDK iPhone
user agent. -/
theorem checkForMobileApp_iphone_trace_witness :
    (checkForMobileApp emptyUrl "SalesforceMobileSDK iPhone" (fun _ => 0)).searchParams
        = emptyUrl.searchParams ++ [(":use_rt", "y"), (":client_id", "TableauVizLWC"),
            (":device_id", generateRandomDeviceId (fun _ => 0)),
            (":device_name", "SFMobileApp_iPhone")]
      ∧ uuidShape (generateRandomDeviceId (fun _ => 0)) = true :=
  checkForMobileApp_iphone_trace emptyUrl "SalesforceMobileSDK iPhone" (fun _ => 0)
    (by decide) (by decide) (by decide) (by decide) (by decide)

/-- Claim C4: a native selection on worksheet `BPDaysOfBacklog` publishes
the payload `{selectedTarget: "Breakpack"}` (renamed through the static
table), and a selection on any unmapped worksheet name publishes the raw
name unchanged. -/
theorem onMarksSelection_rename_table :
    (onMarksSelection "BPDaysOfBacklog").publishedPayload.selectedTarget = "Breakpack"
      ∧ ∀ w : String, w ≠ "IBDaysOfBacklog (2)" → w ≠ "BPDaysOfBacklog" → w ≠ "FC.DOB" →
          (onMarksSelection w).publishedPayload.selectedTarget = w := by
  constructor
  · decide
  · intro w hw1 hw2 hw3
    simp [onMarksSelection, fireLwcMarkEvent, mapSelectedTarget, hw1, hw2, hw3]

/-- Witness for `onMarksSelection_rename_table` at the unmapped worksheet
name `Foo`. -/
theorem onMarksSelection_rename_table_witness :
    (onMarksSelection "BPDaysOfBacklog").publishedPayload.selectedTarget = "Breakpack"
      ∧ (onMarksSelection "Foo").publishedPayload.selectedTarget = "Foo" :=
  ⟨onMarksSelection_rename_table.1,
    onMarksSelection_rename_table.2 "Foo" (by decide) (by decide) (by decide)⟩

/-- Claim C7: in a render pass over a configuration with
`filterOnRecordId === true`, `objectApiName = "Account"` and
`recordId = "001x"`, the embed URL handed to the constructed viz holds the
query parameter `Account ID` with value `001x`. -/
theorem recordIdFilter_in_embedUrl (s : VizState) (w : Nat) (ua : String) (rand : Nat → Nat)
    (u : URLRec)
    (h1 : validateInputs s.cfg = none)
    (h2 : s.errorMessage = none)
    (h3 : s.isLibLoaded = true)
    (h4 : (truthy s.cfg.sfAdvancedFilter && isUndef s.advancedFilterValue) = false)
    (hu : s.cfg.vizUrl = some u)
    (hA : s.cfg.filterOnRecordId = JSValue.boolean true)
    (hB : s.cfg.objectApiName = JSValue.string "Account")
    (hC : s.cfg.recordId = JSValue.string "001x") :
    ∃ v, (renderViz s w ua rand).viz = some v
      ∧ ("Account ID", "001x") ∈ v.url.searchParams := by
  have hmem : ("Account ID", "001x")
      ∈ (setVizFilters s.cfg s.advancedFilterValue
          (setVizDimensions u w s.cfg.height)).searchParams := by
    have hr := recordParam_mem s.cfg s.advancedFilterValue
      (setVizDimensions u w s.cfg.height) (by rw [hA]; rfl) (by rw [hB]; rfl)
    rw [hB, hC] at hr
    simpa [jsToString] using hr
  unfold renderViz
  rw [h1]
  dsimp only
  rw [h2]
  simp only [Option.isSome_none, Bool.false_eq_true, if_false, h3, Bool.not_true, h4]
  rw [hu]
  dsimp only
  exact ⟨_, rfl, mem_checkForMobileApp ua rand hmem⟩

/-- Witness for `recordIdFilter_in_embedUrl` over the `Account` fixture
state. -/
theorem recordIdFilter_in_embedUrl_witness :
    ∃ v, (renderViz sAccount 800 "Mozilla/5.0" (fun _ => 0)).viz = some v
      ∧ ("Account ID", "001x") ∈ v.url.searchParams :=
  recordIdFilter_in_embedUrl sAccount 800 "Mozilla/5.0" (fun _ => 0) baseUrl
    (by decide) rfl rfl (by decide) rfl rfl rfl rfl

/-- Claim C9: the in-context record-id parameter requires
`filterOnRecordId` to be strictly the boolean `true`: for any truthy
value other than it (such as the string `"true"`), `setVizFilters` leaves
the URL without a `{objectApiName} ID` parameter (the hypotheses keep that
name distinct from pre-existing parameters and from the advanced-filter
name). -/
theorem recordFilter_requires_strict_boolean_true (cfg : Config) (advVal : JSValue)
    (u : URLRec)
    (hT : truthy cfg.filterOnRecordId = true)
    (hNe : cfg.filterOnRecordId ≠ JSValue.boolean true)
    (hU : hasParamNamed u (jsToString cfg.objectApiName ++ " ID") = false)
    (hTab : jsToString cfg.tabAdvancedFilter ≠ jsToString cfg.objectApiName ++ " ID") :
    hasParamNamed (setVizFilters cfg advVal u)
      (jsToString cfg.objectApiName ++ " ID") = false := by
  have hst : strictTrue cfg.filterOnRecordId = false := by
    cases hb : strictTrue cfg.filterOnRecordId
    · rfl
    · exact absurd ((strictTrue_eq_true_iff _).mp hb) hNe
  unfold setVizFilters
  rw [hst]
  simp only [Bool.false_and, Bool.false_eq_true, if_false]
  by_cases ha : (truthy cfg.tabAdvancedFilter && truthy advVal) = true
  · rw [if_pos ha, hasParamNamed_appendParam, hU]
    simp only [Bool.false_or, beq_eq_false_iff_ne]
    exact hTab
  · rw [if_neg ha]; exact hU

/-- Witness for `recordFilter_requires_strict_boolean_true` with
`filterOnRecordId` set to the string `"true"`. -/
theorem recordFilter_requires_strict_boolean_true_witness :
    hasParamNamed (setVizFilters cfgStringTrue JSValue.undefined emptyUrl)
      (jsToString cfgStringTrue.objectApiName ++ " ID") = false :=
  recordFilter_requires_strict_boolean_true cfgStringTrue JSValue.undefined emptyUrl
    (by decide) (by decide) (by decide) (by decide)

/-- Claim C10: with `filterOnRecordId === true`, a non-empty
`objectApiName` and an `undefined` `recordId`, the record-id parameter is
still appended, its value being the literal string `undefined` (the
string coercion of the missing record id). -/
theorem undefined_recordId_appended_as_string (cfg : Config) (advVal : JSValue)
    (u : URLRec) (o : String)
    (h1 : cfg.filterOnRecordId = JSValue.boolean true)
    (h2 : cfg.objectApiName = JSValue.string o)
    (h3 : o ≠ "")
    (h4 : cfg.recordId = JSValue.undefined) :
    (o ++ " ID", "undefined") ∈ (setVizFilters cfg advVal u).searchParams := by
  have hr := recordParam_mem cfg advVal u (by rw [h1]; rfl)
    (by rw [h2]; simp [truthy, h3])
  rw [h2, h4] at hr
  simpa [jsToString] using hr

/-- Witness for `undefined_recordId_appended_as_string` over the
`Account` configuration lacking a record id. -/
theorem undefined_recordId_appended_as_string_witness :
    ("Account ID", "undefined")
      ∈ (setVizFilters cfgNoRecordId JSValue.undefined emptyUrl).searchParams :=
  undefined_recordId_appended_as_string cfgNoRecordId JSValue.undefined emptyUrl "Account"
    rfl rfl (by decide) rfl


